import Mathlib

/-!
Verification development for the PDF line-item extraction pipeline
(`extract.py`): data model, column-shift corrector, response sanitizer,
carry-forward state and chunk orchestrator, shallowly embedded in Lean.

Python strings are modelled as Lean `String` / `List Char`.  Python float
values are modelled exactly as `mantissa * 10 ^ exponent` (`PyFloat`); the
pipeline only ever compares the parsed numbers with zero, on short decimal
literals, where this exact representation and IEEE floats agree.
-/

/-- One extracted row: the 13 string-typed fields of the pydantic model
`LineItem` (extract.py lines 12-25). -/
structure LineItem where
  unit : String
  room : String
  category : String
  serial : String
  description : String
  qty : String
  uom : String
  reset : String
  remove : String
  replace : String
  tax : String
  oandp : String
  total : String
deriving DecidableEq, Repr

/-- Whitespace in the sense of Python `str.strip()` and the regex class
for spaces (ASCII part: space, tab, newline, carriage return, vertical
tab, form feed). -/
def pyIsSpace (c : Char) : Bool :=
  c = ' ' || c = '\t' || c = '\n' || c = '\r' || c = '\x0b' || c = '\x0c'

/-- Python `str.strip()`: drop whitespace from both ends. -/
def pyStrip (cs : List Char) : List Char :=
  ((cs.dropWhile pyIsSpace).reverse.dropWhile pyIsSpace).reverse

/-- Digits of a decimal numeral to a natural number. -/
def digitsToNat (ds : List Char) : Nat :=
  ds.foldl (fun n c => 10 * n + (c.toNat - 48)) 0

/-- The exact value of a parsed float literal: `mantissa * 10 ^ exponent`.
Kernel-computable stand-in for the Python float, adequate because the
code only compares these numbers with zero. -/
structure PyFloat where
  mantissa : Int
  exponent : Int
deriving DecidableEq, Repr

/-- Integer power of ten as a rational (handles negative exponents). -/
def pow10 (e : Int) : ℚ :=
  if 0 ≤ e then ((10 : ℚ) ^ e.toNat) else 1 / ((10 : ℚ) ^ (-e).toNat)

/-- Rational value denoted by a `PyFloat`. -/
def PyFloat.toRat (x : PyFloat) : ℚ :=
  (x.mantissa : ℚ) * pow10 x.exponent

/-- The float comparison `== 0` of the source, on the exact value. -/
def PyFloat.isZero (x : PyFloat) : Bool :=
  x.mantissa == 0

/-- The float comparison `> 0` of the source, on the exact value. -/
def PyFloat.isPos (x : PyFloat) : Bool :=
  decide (0 < x.mantissa)

theorem pow10_pos (e : Int) : 0 < pow10 e := by
  unfold pow10
  split <;> positivity

theorem PyFloat.isZero_iff (x : PyFloat) : x.isZero = true ↔ x.toRat = 0 := by
  have hp := (pow10_pos x.exponent).ne'
  rw [PyFloat.isZero, beq_iff_eq, PyFloat.toRat, mul_eq_zero]
  simp [hp, Int.cast_eq_zero]

theorem PyFloat.isPos_iff (x : PyFloat) : x.isPos = true ↔ 0 < x.toRat := by
  have hp := pow10_pos x.exponent
  rw [PyFloat.isPos, decide_eq_true_iff, PyFloat.toRat, mul_pos_iff_of_pos_right hp]
  exact Int.cast_pos.symm

/-- Exponent suffix of a Python float literal: optional sign, digits,
nothing after. -/
def parseExp (m : Int) (k : Int) (r : List Char) : Option PyFloat :=
  let se : Int × List Char :=
    match r with
    | '+' :: t => (1, t)
    | '-' :: t => (-1, t)
    | t => (1, t)
  let ed := se.2.takeWhile Char.isDigit
  let r2 := se.2.dropWhile Char.isDigit
  if ed.isEmpty || !r2.isEmpty then none
  else some ⟨m, k + se.1 * (digitsToNat ed : Int)⟩

/-- Python `float()` on a decimal literal (optional sign, integer part,
fractional part, optional exponent), with exact value semantics.
Non-literal inputs (including `inf`/`nan` forms, which the numeric
columns never hold) yield `none`. -/
def pyParseFloat (cs : List Char) : Option PyFloat :=
  let sc : Int × List Char :=
    match cs with
    | '+' :: r => (1, r)
    | '-' :: r => (-1, r)
    | r => (1, r)
  let ip := sc.2.takeWhile Char.isDigit
  let r1 := sc.2.dropWhile Char.isDigit
  let fr : List Char × List Char :=
    match r1 with
    | '.' :: r => (r.takeWhile Char.isDigit, r.dropWhile Char.isDigit)
    | r => ([], r)
  if ip.isEmpty && fr.1.isEmpty then none
  else
    let m : Int := sc.1 * (digitsToNat (ip ++ fr.1) : Int)
    let k : Int := -(fr.1.length : Int)
    match fr.2 with
    | [] => some ⟨m, k⟩
    | 'e' :: r3 => parseExp m k r3
    | 'E' :: r3 => parseExp m k r3
    | _ => none

/-- Lenient numeric view `_to_num` (extract.py lines 104-108): remove
thousands separators, strip, empty becomes "0", parse failure becomes 0. -/
def _to_num (s : String) : PyFloat :=
  let t := pyStrip (s.data.filter (fun c => c ≠ ','))
  let t := if t.isEmpty then ['0'] else t
  match pyParseFloat t with
  | some q => q
  | none => ⟨0, 0⟩

example : _to_num "10.00" = ⟨1000, -2⟩ := by decide
example : (_to_num "").isZero = true := by decide
example : _to_num "1,234.5" = ⟨12345, -1⟩ := by decide
example : (_to_num "abc").isZero = true := by decide
example : _to_num " -2.5e1 " = ⟨-25, 0⟩ := by decide
example : (_to_num "10.00").isPos = true := by decide

/-- Shift-detection condition a (extract.py line 118): zero total with a
populated oandp. -/
def cond_a (item : LineItem) : Bool :=
  (_to_num item.total).isZero && (_to_num item.oandp).isPos

/-- Shift-detection condition b (extract.py line 119): oandp and total
share the same raw string and that value is positive. -/
def cond_b (item : LineItem) : Bool :=
  (item.oandp == item.total) && (_to_num item.total).isPos

/-- Shift-detection condition c (extract.py line 120): replace and tax
share the same raw string and tax is positive. -/
def cond_c (item : LineItem) : Bool :=
  (item.replace == item.tax) && (_to_num item.tax).isPos

/-- Shift-detection condition d (extract.py line 121): reset is zero while
remove and replace are both positive. -/
def cond_d (item : LineItem) : Bool :=
  (_to_num item.reset).isZero && (_to_num item.remove).isPos
    && (_to_num item.replace).isPos

/-- Trigger of the general safety-net pass (extract.py lines 110-123). -/
def _needs_left_shift (item : LineItem) : Bool :=
  cond_a item || cond_b item || cond_c item || cond_d item

/-- General safety-net pass (extract.py lines 125-133): rightward
relabeling of the five columns after reset. -/
def fix_shift (item : LineItem) : LineItem :=
  if _needs_left_shift item then
    { item with
        total := item.oandp
        oandp := item.tax
        tax := item.replace
        replace := item.remove
        remove := "0" }
  else item

/-- Duplicate-specific pass (extract.py lines 135-151): on a duplicated
oandp/total with positive value, force reset to "0" and relabel. -/
def shift_on_dup (item : LineItem) : LineItem :=
  if (item.oandp == item.total) && (_to_num item.total).isPos then
    { item with
        reset := "0"
        total := item.oandp
        oandp := item.tax
        tax := item.replace
        replace := item.remove
        remove := "0" }
  else item

/-- Full Column-Shift Corrector as applied per item by the orchestrator
(extract.py lines 201-204): duplicate pass first, then the safety net. -/
def correct_item (item : LineItem) : LineItem :=
  fix_shift (shift_on_dup item)

theorem shift_on_dup_of_cond_b_false (item : LineItem) (h : cond_b item = false) :
    shift_on_dup item = item := by
  unfold cond_b at h
  unfold shift_on_dup
  rw [h]
  rfl

/-- C1 counterexample: the full corrector is not idempotent.  Condition c
fires on this item; the corrected item then satisfies condition a, so a
second application shifts again. -/
theorem corrector_not_idempotent_cx :
    correct_item (correct_item
        ⟨"u", "r", "c", "s", "d", "1", "EA", "1", "1", "5", "5", "0", "7"⟩) ≠
      correct_item ⟨"u", "r", "c", "s", "d", "1", "EA", "1", "1", "5", "5", "0", "7"⟩ := by
  decide

/-- C1 (amended): each pass is a no-op whenever its trigger condition does
not hold on its input; consequently the corrector is idempotent on every
item whose corrected form triggers no detection condition (but not in
general). -/
theorem corrector_conditionally_idempotent (item : LineItem) :
    (cond_b item = false → shift_on_dup item = item) ∧
    (_needs_left_shift item = false → fix_shift item = item) ∧
    (_needs_left_shift (correct_item item) = false →
      correct_item (correct_item item) = correct_item item) := by
  refine ⟨shift_on_dup_of_cond_b_false item, ?_, ?_⟩
  · intro h
    unfold fix_shift
    rw [h]
    rfl
  · intro h
    have hb : cond_b (correct_item item) = false := by
      unfold _needs_left_shift at h
      simp only [Bool.or_eq_false_iff] at h
      exact h.1.1.2
    show fix_shift (shift_on_dup (correct_item item)) = correct_item item
    rw [shift_on_dup_of_cond_b_false _ hb]
    unfold fix_shift
    rw [h]
    rfl

/-- C1 witness: on an item triggering no condition, both passes are no-ops
and the corrector is idempotent. -/
theorem corrector_conditionally_idempotent_witness :
    shift_on_dup ⟨"u", "r", "c", "s", "d", "1", "EA", "1", "2", "3", "4", "5", "6"⟩ =
        ⟨"u", "r", "c", "s", "d", "1", "EA", "1", "2", "3", "4", "5", "6"⟩ ∧
    fix_shift ⟨"u", "r", "c", "s", "d", "1", "EA", "1", "2", "3", "4", "5", "6"⟩ =
        ⟨"u", "r", "c", "s", "d", "1", "EA", "1", "2", "3", "4", "5", "6"⟩ ∧
    correct_item (correct_item ⟨"u", "r", "c", "s", "d", "1", "EA", "1", "2", "3", "4", "5", "6"⟩) =
      correct_item ⟨"u", "r", "c", "s", "d", "1", "EA", "1", "2", "3", "4", "5", "6"⟩ :=
  ⟨(corrector_conditionally_idempotent _).1 (by decide),
   (corrector_conditionally_idempotent _).2.1 (by decide),
   (corrector_conditionally_idempotent _).2.2 (by decide)⟩

/-- C4 counterexample: on the duplicate-corrected form of an item whose
tax equalled its oandp and total, none of conditions a, c, d holds, yet
the general safety-net pass still rewrites the item (condition b holds
again), so the general pass does not fire exactly on a, c, d. -/
theorem general_pass_fires_without_acd_cx :
    shift_on_dup ⟨"u", "r", "c", "s", "d", "1", "EA", "9", "7", "3", "5", "5", "5"⟩ =
        ⟨"u", "r", "c", "s", "d", "1", "EA", "0", "0", "7", "3", "5", "5"⟩ ∧
    cond_a ⟨"u", "r", "c", "s", "d", "1", "EA", "0", "0", "7", "3", "5", "5"⟩ = false ∧
    cond_c ⟨"u", "r", "c", "s", "d", "1", "EA", "0", "0", "7", "3", "5", "5"⟩ = false ∧
    cond_d ⟨"u", "r", "c", "s", "d", "1", "EA", "0", "0", "7", "3", "5", "5"⟩ = false ∧
    fix_shift ⟨"u", "r", "c", "s", "d", "1", "EA", "0", "0", "7", "3", "5", "5"⟩ ≠
      ⟨"u", "r", "c", "s", "d", "1", "EA", "0", "0", "7", "3", "5", "5"⟩ := by
  decide

/-- C4 (amended): the general safety-net pass performs the rightward
relabeling exactly when one of conditions a, b, c, d holds on its input
(condition b included, since it can hold again after the duplicate pass),
and it never modifies reset; the duplicate-specific pass fires on
condition b only and additionally forces reset to "0". -/
theorem shift_pass_triggers (item : LineItem) :
    (_needs_left_shift item = true →
      (fix_shift item).total = item.oandp ∧ (fix_shift item).oandp = item.tax ∧
      (fix_shift item).tax = item.replace ∧ (fix_shift item).replace = item.remove ∧
      (fix_shift item).remove = "0") ∧
    (_needs_left_shift item = false → fix_shift item = item) ∧
    (fix_shift item).reset = item.reset ∧
    (cond_b item = true →
      (shift_on_dup item).reset = "0" ∧ (shift_on_dup item).total = item.oandp ∧
      (shift_on_dup item).oandp = item.tax ∧ (shift_on_dup item).tax = item.replace ∧
      (shift_on_dup item).replace = item.remove ∧ (shift_on_dup item).remove = "0") ∧
    (cond_b item = false → shift_on_dup item = item) := by
  refine ⟨?_, ?_, ?_, ?_, shift_on_dup_of_cond_b_false item⟩
  · intro h
    simp [fix_shift, h]
  · intro h
    unfold fix_shift
    rw [h]
    rfl
  · unfold fix_shift
    split <;> rfl
  · intro h
    unfold cond_b at h
    simp [shift_on_dup, h]

/-- C4 witness: the triggering and non-triggering branches of both passes,
at concrete items. -/
theorem shift_pass_triggers_witness :
    ((fix_shift ⟨"u", "r", "c", "s", "d", "1", "EA", "2", "3", "4", "6", "8", "8"⟩).total = "8" ∧
      (fix_shift ⟨"u", "r", "c", "s", "d", "1", "EA", "2", "3", "4", "6", "8", "8"⟩).oandp = "6" ∧
      (fix_shift ⟨"u", "r", "c", "s", "d", "1", "EA", "2", "3", "4", "6", "8", "8"⟩).tax = "4" ∧
      (fix_shift ⟨"u", "r", "c", "s", "d", "1", "EA", "2", "3", "4", "6", "8", "8"⟩).replace = "3" ∧
      (fix_shift ⟨"u", "r", "c", "s", "d", "1", "EA", "2", "3", "4", "6", "8", "8"⟩).remove = "0") ∧
    (shift_on_dup ⟨"u", "r", "c", "s", "d", "1", "EA", "2", "3", "4", "6", "8", "8"⟩).reset = "0" ∧
    fix_shift ⟨"u", "r", "c", "s", "d", "1", "EA", "2", "3", "4", "6", "8", "9"⟩ =
      ⟨"u", "r", "c", "s", "d", "1", "EA", "2", "3", "4", "6", "8", "9"⟩ ∧
    shift_on_dup ⟨"u", "r", "c", "s", "d", "1", "EA", "2", "3", "4", "6", "8", "9"⟩ =
      ⟨"u", "r", "c", "s", "d", "1", "EA", "2", "3", "4", "6", "8", "9"⟩ :=
  ⟨(shift_pass_triggers _).1 (by decide),
   ((shift_pass_triggers _).2.2.2.1 (by decide)).1,
   (shift_pass_triggers _).2.1 (by decide),
   (shift_pass_triggers _).2.2.2.2 (by decide)⟩

/-- C5 counterexample: an item whose oandp and total are both numerically
zero but which satisfies condition c; the corrector rewrites it. -/
theorem zero_dup_still_shifted_cx :
    (_to_num (LineItem.oandp ⟨"u", "r", "c", "s", "d", "1", "EA", "1", "0", "5", "5", "0", "0"⟩)).toRat = 0 ∧
    (_to_num (LineItem.total ⟨"u", "r", "c", "s", "d", "1", "EA", "1", "0", "5", "5", "0", "0"⟩)).toRat = 0 ∧
    correct_item ⟨"u", "r", "c", "s", "d", "1", "EA", "1", "0", "5", "5", "0", "0"⟩ ≠
      ⟨"u", "r", "c", "s", "d", "1", "EA", "1", "0", "5", "5", "0", "0"⟩ :=
  ⟨(PyFloat.isZero_iff _).mp (by decide), (PyFloat.isZero_iff _).mp (by decide), by decide⟩

/-- C5 (amended): if oandp and total are both numerically zero then
conditions a and b cannot fire and the duplicate pass is a no-op; if
moreover neither condition c nor condition d holds, the whole corrector
leaves the item unchanged (in particular an all-zero row is untouched).
Conditions c and d can still fire on such items, so the unrestricted
claim fails. -/
theorem zero_oandp_total_not_flagged (item : LineItem)
    (h1 : (_to_num item.oandp).toRat = 0) (h2 : (_to_num item.total).toRat = 0) :
    cond_a item = false ∧ cond_b item = false ∧ shift_on_dup item = item ∧
    (cond_c item = false → cond_d item = false → correct_item item = item) := by
  have hp1 : (_to_num item.oandp).isPos = false := by
    rw [← Bool.not_eq_true, PyFloat.isPos_iff, h1]
    exact lt_irrefl 0
  have hp2 : (_to_num item.total).isPos = false := by
    rw [← Bool.not_eq_true, PyFloat.isPos_iff, h2]
    exact lt_irrefl 0
  have ha : cond_a item = false := by simp [cond_a, hp1]
  have hb : cond_b item = false := by simp [cond_b, hp2]
  refine ⟨ha, hb, shift_on_dup_of_cond_b_false item hb, ?_⟩
  intro hc hd
  have hn : _needs_left_shift item = false := by
    simp [_needs_left_shift, ha, hb, hc, hd]
  unfold correct_item
  rw [shift_on_dup_of_cond_b_false item hb]
  unfold fix_shift
  rw [hn]
  rfl

/-- C5 witness: a row with all six numeric columns "0" is untouched by
both passes. -/
theorem zero_oandp_total_not_flagged_witness :
    cond_a ⟨"u", "r", "c", "s", "d", "1", "EA", "0", "0", "0", "0", "0", "0"⟩ = false ∧
    cond_b ⟨"u", "r", "c", "s", "d", "1", "EA", "0", "0", "0", "0", "0", "0"⟩ = false ∧
    shift_on_dup ⟨"u", "r", "c", "s", "d", "1", "EA", "0", "0", "0", "0", "0", "0"⟩ =
      ⟨"u", "r", "c", "s", "d", "1", "EA", "0", "0", "0", "0", "0", "0"⟩ ∧
    correct_item ⟨"u", "r", "c", "s", "d", "1", "EA", "0", "0", "0", "0", "0", "0"⟩ =
      ⟨"u", "r", "c", "s", "d", "1", "EA", "0", "0", "0", "0", "0", "0"⟩ :=
  ⟨((zero_oandp_total_not_flagged _ ((PyFloat.isZero_iff _).mp (by decide))
      ((PyFloat.isZero_iff _).mp (by decide)))).1,
   ((zero_oandp_total_not_flagged _ ((PyFloat.isZero_iff _).mp (by decide))
      ((PyFloat.isZero_iff _).mp (by decide)))).2.1,
   ((zero_oandp_total_not_flagged _ ((PyFloat.isZero_iff _).mp (by decide))
      ((PyFloat.isZero_iff _).mp (by decide)))).2.2.1,
   ((zero_oandp_total_not_flagged _ ((PyFloat.isZero_iff _).mp (by decide))
      ((PyFloat.isZero_iff _).mp (by decide)))).2.2.2 (by decide) (by decide)⟩

/-- C6: on the spec's worked example, condition b fires and the full
corrector (duplicate pass, then general pass) produces exactly the
expected row. -/
theorem duplicate_shift_worked_example :
    cond_b ⟨"u", "r", "c", "s", "d", "1", "EA", "0", "5.00", "10.00", "0", "10.00", "10.00"⟩ = true ∧
    correct_item ⟨"u", "r", "c", "s", "d", "1", "EA", "0", "5.00", "10.00", "0", "10.00", "10.00"⟩ =
      ⟨"u", "r", "c", "s", "d", "1", "EA", "0", "0", "5.00", "10.00", "0", "10.00"⟩ := by
  decide

/-- C9: neither pass modifies the seven non-numeric fields, and the
general pass leaves reset unchanged as well. -/
theorem shift_passes_frame (item : LineItem) :
    (shift_on_dup item).unit = item.unit ∧ (shift_on_dup item).room = item.room ∧
    (shift_on_dup item).category = item.category ∧ (shift_on_dup item).serial = item.serial ∧
    (shift_on_dup item).description = item.description ∧ (shift_on_dup item).qty = item.qty ∧
    (shift_on_dup item).uom = item.uom ∧
    (fix_shift item).unit = item.unit ∧ (fix_shift item).room = item.room ∧
    (fix_shift item).category = item.category ∧ (fix_shift item).serial = item.serial ∧
    (fix_shift item).description = item.description ∧ (fix_shift item).qty = item.qty ∧
    (fix_shift item).uom = item.uom ∧ (fix_shift item).reset = item.reset := by
  unfold shift_on_dup fix_shift
  constructor
  · split <;> rfl
  repeat' constructor
  all_goals split <;> rfl

/-- The sticky unit/room/category context threaded across chunks
(extract.py line 161), initialized to "unknown". -/
structure CarryState where
  last_unit : String
  last_room : String
  last_category : String
deriving DecidableEq, Repr

/-- The test deciding whether a field value carries no real data
(extract.py lines 185/191/196): Python falsiness of the raw string, or
the trimmed lower-cased value equals "unknown". -/
def is_missing (v : String) : Bool :=
  v == "" || String.mk ((pyStrip v.data).map Char.toLower) == "unknown"

/-- Carry-forward of unit, room and category for one item
(extract.py lines 184-199): a missing field is filled from the state, a
present field overwrites the state. -/
def carry_item (d : LineItem) (st : CarryState) : LineItem × CarryState :=
  let pu : LineItem × String :=
    if is_missing d.unit then ({ d with unit := st.last_unit }, st.last_unit)
    else (d, d.unit)
  let pr : LineItem × String :=
    if is_missing pu.1.room then ({ pu.1 with room := st.last_room }, st.last_room)
    else (pu.1, pu.1.room)
  let pc : LineItem × String :=
    if is_missing pr.1.category then ({ pr.1 with category := st.last_category }, st.last_category)
    else (pr.1, pr.1.category)
  (pc.1, ⟨pu.2, pr.2, pc.2⟩)

/-- C7: for each of unit, room and category independently, a missing
value (empty, or "unknown" after trimming and case-folding) is replaced
by the Carry State's value and the state keeps its value, while a present
value is kept on the item and overwrites the state. -/
theorem carry_item_per_field (d : LineItem) (st : CarryState) :
    (carry_item d st).1.unit = (if is_missing d.unit then st.last_unit else d.unit) ∧
    (carry_item d st).2.last_unit = (if is_missing d.unit then st.last_unit else d.unit) ∧
    (carry_item d st).1.room = (if is_missing d.room then st.last_room else d.room) ∧
    (carry_item d st).2.last_room = (if is_missing d.room then st.last_room else d.room) ∧
    (carry_item d st).1.category = (if is_missing d.category then st.last_category else d.category) ∧
    (carry_item d st).2.last_category = (if is_missing d.category then st.last_category else d.category) := by
  unfold carry_item
  by_cases hu : is_missing d.unit <;>
    by_cases hr : is_missing d.room <;>
      by_cases hc : is_missing d.category <;>
        simp [hu, hr, hc]

theorem dropWhile_eq_nil_of_forall {p : Char → Bool} {l : List Char}
    (h : ∀ c ∈ l, p c = true) : l.dropWhile p = [] := by
  induction l with
  | nil => rfl
  | cons x xs ih =>
      rw [List.dropWhile_cons, h x (List.mem_cons_self x xs)]
      exact ih fun c hc => h c (List.mem_cons_of_mem x hc)

theorem is_missing_all_space {v : String} (hne : v ≠ "")
    (hsp : ∀ c ∈ v.data, pyIsSpace c = true) : is_missing v = false := by
  have hstrip : pyStrip v.data = [] := by
    unfold pyStrip
    rw [dropWhile_eq_nil_of_forall hsp]
    rfl
  have hv : (v == "") = false := by
    simp [String.ext_iff] at hne ⊢
    intro h
    exact hne h
  unfold is_missing
  rw [hstrip, hv]
  rfl

/-- C10: a non-empty, all-whitespace unit/room/category value is treated
as authoritative by the State Carrier: it is kept on the item and
overwrites the Carry State for that field (the emptiness test sees the
untrimmed string, and the trimmed lower-cased value is "" not
"unknown"). -/
theorem whitespace_value_is_authoritative (d : LineItem) (st : CarryState)
    (hu : d.unit ≠ "") (hsu : ∀ c ∈ d.unit.data, pyIsSpace c = true)
    (hr : d.room ≠ "") (hsr : ∀ c ∈ d.room.data, pyIsSpace c = true)
    (hc : d.category ≠ "") (hsc : ∀ c ∈ d.category.data, pyIsSpace c = true) :
    (carry_item d st).1.unit = d.unit ∧ (carry_item d st).2.last_unit = d.unit ∧
    (carry_item d st).1.room = d.room ∧ (carry_item d st).2.last_room = d.room ∧
    (carry_item d st).1.category = d.category ∧ (carry_item d st).2.last_category = d.category := by
  have h1 := is_missing_all_space hu hsu
  have h2 := is_missing_all_space hr hsr
  have h3 := is_missing_all_space hc hsc
  have h := carry_item_per_field d st
  rw [h1, h2, h3] at h
  simpa using h

/-- C10 witness: concrete all-whitespace values survive the carrier and
overwrite the state. -/
theorem whitespace_value_is_authoritative_witness :
    (carry_item ⟨" ", "  ", "\t", "s", "d", "1", "EA", "0", "0", "0", "0", "0", "1"⟩
        ⟨"U9", "R9", "C9"⟩).1.unit = " " ∧
    (carry_item ⟨" ", "  ", "\t", "s", "d", "1", "EA", "0", "0", "0", "0", "0", "1"⟩
        ⟨"U9", "R9", "C9"⟩).2.last_unit = " " ∧
    (carry_item ⟨" ", "  ", "\t", "s", "d", "1", "EA", "0", "0", "0", "0", "0", "1"⟩
        ⟨"U9", "R9", "C9"⟩).1.room = "  " ∧
    (carry_item ⟨" ", "  ", "\t", "s", "d", "1", "EA", "0", "0", "0", "0", "0", "1"⟩
        ⟨"U9", "R9", "C9"⟩).2.last_room = "  " ∧
    (carry_item ⟨" ", "  ", "\t", "s", "d", "1", "EA", "0", "0", "0", "0", "0", "1"⟩
        ⟨"U9", "R9", "C9"⟩).1.category = "\t" ∧
    (carry_item ⟨" ", "  ", "\t", "s", "d", "1", "EA", "0", "0", "0", "0", "0", "1"⟩
        ⟨"U9", "R9", "C9"⟩).2.last_category = "\t" :=
  whitespace_value_is_authoritative _ _
    (by decide) (by decide) (by decide) (by decide) (by decide) (by decide)

/-- The three failure kinds a chunk can log (spec taxonomy; extract.py
lines 214-219: the JSONDecodeError branch and the generic branch covering
the model call and schema validation). -/
inductive ChunkError where
  | serviceError
  | parseError
  | schemaError
deriving DecidableEq, Repr

/-- Outcome of the external stages of one chunk (model call, JSON parse,
schema validation are external collaborators): either a failure of one of
the three kinds, or the validated list of items. -/
inductive ChunkResponse where
  | failure (e : ChunkError)
  | success (items : List LineItem)
deriving DecidableEq, Repr

/-- Initial Carry State (extract.py line 161). -/
def initial_state : CarryState :=
  ⟨"unknown", "unknown", "unknown"⟩

/-- Per-item stage of the orchestrator loop (extract.py lines 184-204):
carry-forward, then duplicate pass, then safety net. -/
def process_item (st : CarryState) (it : LineItem) : LineItem × CarryState :=
  let p := carry_item it st
  (correct_item p.1, p.2)

/-- Item loop of one chunk (extract.py lines 180-206), threading the
Carry State and preserving item order. -/
def process_items (st : CarryState) : List LineItem → List LineItem × CarryState
  | [] => ([], st)
  | it :: rest =>
      let p := process_item st it
      let q := process_items p.2 rest
      (p.1 :: q.1, q.2)

/-- Chunk loop of the orchestrator (extract.py lines 163-219): a failed
chunk is logged and skipped; a successful chunk's corrected items extend
the running list. -/
def process_chunks (st : CarryState) (i : Nat) :
    List ChunkResponse → List LineItem × List (Nat × ChunkError)
  | [] => ([], [])
  | ChunkResponse.failure e :: rest =>
      let q := process_chunks st (i + 1) rest
      (q.1, (i, e) :: q.2)
  | ChunkResponse.success xs :: rest =>
      let p := process_items st xs
      let q := process_chunks p.2 (i + 1) rest
      (p.1 ++ q.1, q.2)

/-- The full run (extract.py lines 155-227): aggregated items plus the
log of failed chunks. -/
def process_pdf_chunks (chunks : List ChunkResponse) :
    List LineItem × List (Nat × ChunkError) :=
  process_chunks initial_state 0 chunks

/-- Reference view following the spec's words: the item lists of the
successful chunks, in document order. -/
def successful_chunks : List ChunkResponse → List (List LineItem)
  | [] => []
  | ChunkResponse.failure _ :: rest => successful_chunks rest
  | ChunkResponse.success xs :: rest => xs :: successful_chunks rest

/-- Reference aggregator following the spec's words: process exactly the
successful chunks' items, in order, threading the Carry State. -/
def aggregate_items (st : CarryState) : List (List LineItem) → List LineItem
  | [] => []
  | xs :: rest =>
      let p := process_items st xs
      p.1 ++ aggregate_items p.2 rest

/-- Reference log following the spec's words: one entry per failed chunk,
in chunk order, indexed by chunk position. -/
def failed_chunks (i : Nat) : List ChunkResponse → List (Nat × ChunkError)
  | [] => []
  | ChunkResponse.failure e :: rest => (i, e) :: failed_chunks (i + 1) rest
  | ChunkResponse.success _ :: rest => failed_chunks (i + 1) rest

theorem process_chunks_spec (chunks : List ChunkResponse) :
    ∀ (st : CarryState) (i : Nat),
      (process_chunks st i chunks).1 = aggregate_items st (successful_chunks chunks) ∧
      (process_chunks st i chunks).2 = failed_chunks i chunks := by
  induction chunks with
  | nil => intro st i; exact ⟨rfl, rfl⟩
  | cons c rest ih =>
      intro st i
      cases c with
      | failure e =>
          simp only [process_chunks, successful_chunks, aggregate_items, failed_chunks]
          exact ⟨(ih st (i + 1)).1, by rw [(ih st (i + 1)).2]⟩
      | success xs =>
          simp only [process_chunks, successful_chunks, aggregate_items, failed_chunks]
          exact ⟨by rw [(ih _ (i + 1)).1], (ih _ (i + 1)).2⟩

/-- C8: a failure in any chunk is recorded in the log and the chunk is
skipped without aborting the run: the aggregated output is exactly the
corrected items of the successful chunks, in chunk order, with no
placeholder entries, and the log lists exactly the failed chunks. -/
theorem failed_chunks_skipped (chunks : List ChunkResponse) :
    (process_pdf_chunks chunks).1 = aggregate_items initial_state (successful_chunks chunks) ∧
    (process_pdf_chunks chunks).2 = failed_chunks 0 chunks :=
  process_chunks_spec chunks initial_state 0

/-- Index of the first occurrence of a character (Python `str.find`
before the -1 encoding). -/
def firstIdx (c : Char) : List Char → Option Nat
  | [] => none
  | x :: xs => if x = c then some 0 else (firstIdx c xs).map (· + 1)

/-- Index of the last occurrence of a character (Python `str.rfind`
before the -1 encoding). -/
def lastIdx (c : Char) : List Char → Option Nat
  | [] => none
  | x :: xs =>
      match lastIdx c xs with
      | some i => some (i + 1)
      | none => if x = c then some 0 else none

/-- Python `str.find`: lowest index or -1. -/
def pyFind (c : Char) (cs : List Char) : Int :=
  match firstIdx c cs with
  | some i => i
  | none => -1

/-- Python `str.rfind`: highest index or -1. -/
def pyRFind (c : Char) (cs : List Char) : Int :=
  match lastIdx c cs with
  | some i => i
  | none => -1

/-- Brace-truncation step of the sanitizer (extract.py lines 98-101):
the start bound is `find`, the stop bound is `rfind + 1`, and the slice is
taken when both bounds differ from -1 (the source's guard). -/
def truncate_braces (text : String) : String :=
  if pyFind '\x7b' text.data != -1 && (pyRFind '\x7d' text.data + 1) != -1 then
    String.mk ((text.data.take (pyRFind '\x7d' text.data + 1).toNat).drop
      (pyFind '\x7b' text.data).toNat)
  else text

/-- Worker for `pyReplace`: while the skip counter is positive the
characters belong to an already-replaced occurrence and are dropped. -/
def pyReplaceAux (pat rep : List Char) : List Char → Nat → List Char
  | [], _ => []
  | _ :: cs, skip + 1 => pyReplaceAux pat rep cs skip
  | c :: cs, 0 =>
      if pat.isPrefixOf (c :: cs) && !pat.isEmpty then
        rep ++ pyReplaceAux pat rep cs (pat.length - 1)
      else c :: pyReplaceAux pat rep cs 0

/-- Python `str.replace` (left-to-right, non-overlapping), on char
lists. -/
def pyReplace (pat rep cs : List Char) : List Char :=
  pyReplaceAux pat rep cs 0

/-- Fence-stripping step of the sanitizer (extract.py line 97). -/
def strip_fences (text : String) : String :=
  String.mk (pyStrip (pyReplace "```".data [] (pyReplace "```json".data [] text.data)))

/-- Line boundaries recognized by Python `str.splitlines`. -/
def isLineBreak (c : Char) : Bool :=
  c = '\n' || c = '\r' || c = '\x0b' || c = '\x0c' || c = '\x1c' || c = '\x1d'
    || c = '\x1e' || c = '\x85' || c = ' ' || c = ' '

/-- Worker for `pySplitlines`: cut at every line boundary, treating a LF
directly after a CR as part of the same boundary (the flag records a
preceding CR); a final boundary leaves a trailing empty line. -/
def splitBreaksAux : Bool → List Char → List (List Char)
  | _, [] => [[]]
  | afterCR, c :: cs =>
      if afterCR && c = '\n' then splitBreaksAux false cs
      else if isLineBreak c then [] :: splitBreaksAux (decide (c = '\r')) cs
      else
        match splitBreaksAux false cs with
        | [] => [[c]]
        | l :: ls => (c :: l) :: ls

/-- Drop the trailing empty line produced by a terminator at the end of
the text (Python `splitlines` emits none there). -/
def dropTrailingEmpty (ls : List (List Char)) : List (List Char) :=
  match ls.getLast? with
  | some [] => ls.dropLast
  | _ => ls

/-- Python `str.splitlines`: split at line boundaries (treating CR LF as
one boundary); a terminator at the end of the text produces no trailing
empty line, and the empty text has no lines. -/
def pySplitlines (cs : List Char) : List (List Char) :=
  match cs with
  | [] => []
  | _ :: _ => dropTrailingEmpty (splitBreaksAux false cs)

/-- Deterministic matcher for the value group of the repair regex
(extract.py line 85): a sequence of backslash escape pairs and characters
other than quote and backslash, up to the closing quote; returns the raw
value characters and the remainder after the closing quote. -/
def parseJsonValue : List Char → Option (List Char × List Char)
  | [] => none
  | '"' :: rest => some ([], rest)
  | '\\' :: c :: rest =>
      if c = '\n' then none
      else
        match parseJsonValue rest with
        | some p => some ('\\' :: c :: p.1, p.2)
        | none => none
  | c :: rest =>
      match parseJsonValue rest with
      | some p => some (c :: p.1, p.2)
      | none => none

/-- Deterministic matcher for the whole repair regex of extract.py line
85 (anchored key/value line shape): returns the key group (leading
whitespace, quoted key, colon, surrounding whitespace), the raw value
characters, and whether a trailing comma is present. -/
def parseKVLine (line : List Char) : Option (List Char × List Char × Bool) :=
  let ws1 := line.takeWhile pyIsSpace
  match line.dropWhile pyIsSpace with
  | '"' :: r2 =>
      let key := r2.takeWhile (fun c => c != '"')
      if key.isEmpty then none
      else
        match r2.dropWhile (fun c => c != '"') with
        | '"' :: r4 =>
            let ws2 := r4.takeWhile pyIsSpace
            match r4.dropWhile pyIsSpace with
            | ':' :: r6 =>
                let ws3 := r6.takeWhile pyIsSpace
                match r6.dropWhile pyIsSpace with
                | '"' :: r8 =>
                    match parseJsonValue r8 with
                    | some (v, r9) =>
                        let g1 := ws1 ++ '"' :: (key ++ '"' :: (ws2 ++ ':' :: ws3))
                        match r9.dropWhile pyIsSpace with
                        | [] => some (g1, v, false)
                        | ',' :: r11 =>
                            if (r11.dropWhile pyIsSpace).isEmpty then some (g1, v, true)
                            else none
                        | _ => none
                    | none => none
                | _ => none
            | _ => none
        | _ => none
  | _ => none

/-- Lower-case hexadecimal digit for an index below 16. -/
def toHexChar (n : Nat) : Char :=
  if n < 10 then Char.ofNat (48 + n) else Char.ofNat (87 + n)

/-- A JSON `\uXXXX` escape for a code unit. -/
def uEscape (n : Nat) : List Char :=
  ['\\', 'u', toHexChar (n / 4096 % 16), toHexChar (n / 256 % 16),
    toHexChar (n / 16 % 16), toHexChar (n % 16)]

/-- Per-character escaping of Python `json.dumps` on strings (default
`ensure_ascii`): short escapes, `\uXXXX` for other control or non-ASCII
characters, surrogate pairs beyond the basic plane. -/
def escapeJsonChar (c : Char) : List Char :=
  if c = '"' then ['\\', '"']
  else if c = '\\' then ['\\', '\\']
  else if c = '\n' then ['\\', 'n']
  else if c = '\r' then ['\\', 'r']
  else if c = '\t' then ['\\', 't']
  else if c = '\x08' then ['\\', 'b']
  else if c = '\x0c' then ['\\', 'f']
  else if c.toNat < 32 then uEscape c.toNat
  else if c.toNat < 127 then [c]
  else if c.toNat < 65536 then uEscape c.toNat
  else uEscape (55296 + (c.toNat - 65536) / 1024) ++ uEscape (56320 + (c.toNat - 65536) % 1024)

/-- Python `json.dumps` on a string value. -/
def pyJsonDumps (s : List Char) : List Char :=
  '"' :: ((s.map escapeJsonChar).flatten ++ ['"'])

/-- Repair of one response line (extract.py lines 87-93): a line matching
the key/value shape is rebuilt as key, re-serialized value, trailing
comma; other lines pass through unchanged. -/
def fix_json_line (line : List Char) : List Char :=
  match parseKVLine line with
  | some (g1, v, comma) => g1 ++ pyJsonDumps v ++ (if comma then [','] else [])
  | none => line

/-- Line-level string-escaping repair `fix_json_lines` (extract.py lines
83-94): repair each line, rejoin with newlines. -/
def fix_json_lines (raw : String) : String :=
  String.intercalate "\n" ((pySplitlines raw.data).map (fun l => String.mk (fix_json_line l)))

/-- The Response Sanitizer `clean_json_string` (extract.py lines 96-102):
strip code fences and surrounding whitespace, truncate to the brace span,
then repair lines. -/
def clean_json_string (text : String) : String :=
  fix_json_lines (truncate_braces (strip_fences text))

/-- Hexadecimal digit test for the JSON string grammar. -/
def isHexDigitChar (c : Char) : Bool :=
  c.isDigit || ('a' ≤ c && c ≤ 'f') || ('A' ≤ c && c ≤ 'F')

/-- Body-and-closing-quote scanner of the JSON string grammar, as a state
machine.  State 0 reads ordinary characters (no unescaped quote,
backslash or control) up to the closing quote, which must end the input;
state 1 reads the character after a backslash (a short escape, or `u`
entering state 5); states 2 to 5 read the remaining hexadecimal digits
of a `\uXXXX` escape. -/
def jsonTailState : Nat → List Char → Bool
  | _, [] => false
  | 0, c :: rest =>
      if c = '"' then rest.isEmpty
      else if c = '\\' then jsonTailState 1 rest
      else 32 ≤ c.toNat && jsonTailState 0 rest
  | 1, e :: rest =>
      if e = '"' || e = '\\' || e = '/' || e = 'b' || e = 'f' || e = 'n'
          || e = 'r' || e = 't' then
        jsonTailState 0 rest
      else if e = 'u' then jsonTailState 5 rest
      else false
  | n + 2, h :: rest =>
      isHexDigitChar h && jsonTailState (if n = 0 then 0 else n + 1) rest

/-- Well-formed JSON string literal per the JSON grammar: an opening
quote followed by a valid body and closing quote. -/
def json_string_ok (s : List Char) : Bool :=
  match s with
  | c :: rest => c == '"' && jsonTailState 0 rest
  | [] => false

example : pySplitlines "a\nb".data = ["a".data, "b".data] := by decide
example : pySplitlines "a\r\n".data = ["a".data] := by decide
example : fix_json_lines "\x22k\x22: \x22a\tb\x22," = "\x22k\x22: \x22a\\tb\x22," := by decide
example : clean_json_string "```json\nx \x7b\n\x22k\x22: \x22v\x22\n\x7d y" = "\x7b\n\x22k\x22: \x22v\x22\n\x7d" := by decide

theorem firstIdx_take {c : Char} : ∀ {l : List Char} {i : Nat},
    firstIdx c l = some i → c ∉ l.take i := by
  intro l
  induction l with
  | nil => intro i h; exact Option.noConfusion h
  | cons x xs ih =>
      intro i h
      unfold firstIdx at h
      by_cases hx : x = c
      · rw [if_pos hx] at h
        injection h with h
        subst h
        simp
      · rw [if_neg hx] at h
        cases hfx : firstIdx c xs with
        | none => rw [hfx] at h; exact Option.noConfusion h
        | some j =>
            rw [hfx] at h
            simp only [Option.map_some'] at h
            injection h with h
            subst h
            intro hmem
            rw [List.take_succ_cons] at hmem
            rcases List.mem_cons.mp hmem with h1 | h2
            · exact hx h1.symm
            · exact ih hfx h2

theorem lastIdx_none_not_mem {c : Char} : ∀ {l : List Char},
    lastIdx c l = none → c ∉ l := by
  intro l
  induction l with
  | nil => intro _ h; exact List.not_mem_nil c h
  | cons x xs ih =>
      intro h hmem
      unfold lastIdx at h
      cases hfx : lastIdx c xs with
      | some j => rw [hfx] at h; exact Option.noConfusion h
      | none =>
          rw [hfx] at h
          by_cases hx : x = c
          · rw [if_pos hx] at h; exact Option.noConfusion h
          · rw [if_neg hx] at h
            rcases List.mem_cons.mp hmem with h1 | h2
            · exact hx h1.symm
            · exact ih hfx h2

theorem lastIdx_drop {c : Char} : ∀ {l : List Char} {j : Nat},
    lastIdx c l = some j → c ∉ l.drop (j + 1) := by
  intro l
  induction l with
  | nil => intro j h; exact Option.noConfusion h
  | cons x xs ih =>
      intro j h
      unfold lastIdx at h
      cases hfx : lastIdx c xs with
      | some i =>
          rw [hfx] at h
          injection h with h
          subst h
          rw [List.drop_succ_cons]
          exact ih hfx
      | none =>
          rw [hfx] at h
          by_cases hx : x = c
          · rw [if_pos hx] at h
            injection h with h
            subst h
            rw [List.drop_succ_cons, List.drop_zero]
            exact lastIdx_none_not_mem hfx
          · rw [if_neg hx] at h; exact Option.noConfusion h

/-- C2 counterexample: on input with an opening brace but no closing
brace the sanitizer does not leave the text unchanged: the end bound
`rfind + 1` is 0, which passes the source's `!= -1` test, so the text is
sliced to the empty string. -/
theorem truncate_missing_close_cx :
    clean_json_string "\x7babc" = "" ∧ ("\x7babc" : String) ≠ "" := by
  constructor
  · decide
  · decide

/-- C2 (amended): the truncation step of the sanitizer keeps the text
unchanged when no opening brace is present; when an opening brace exists
but no closing brace, the result is the empty string (the end bound
check is vacuous); when both exist, the text is cut to the span from the
first opening brace to the last closing brace inclusive. -/
theorem truncate_braces_cases (text : String) :
    (firstIdx '\x7b' text.data = none → truncate_braces text = text) ∧
    (∀ i, firstIdx '\x7b' text.data = some i → lastIdx '\x7d' text.data = none →
      truncate_braces text = "") ∧
    (∀ i j, firstIdx '\x7b' text.data = some i → lastIdx '\x7d' text.data = some j →
      (truncate_braces text).data = (text.data.take (j + 1)).drop i ∧
      '\x7b' ∉ text.data.take i ∧ '\x7d' ∉ text.data.drop (j + 1)) := by
  refine ⟨?_, ?_, ?_⟩
  · intro h
    unfold truncate_braces pyFind
    rw [h]
    rfl
  · intro i h1 h2
    unfold truncate_braces pyFind pyRFind
    rw [h1, h2]
    have e1 : ((i : Int) != -1) = true := by
      simp only [bne_iff_ne, ne_eq]
      omega
    have e0 : ((-1 : Int) + 1) = 0 := by norm_num
    rw [e0, e1]
    simp
  · intro i j h1 h2
    refine ⟨?_, firstIdx_take h1, lastIdx_drop h2⟩
    unfold truncate_braces pyFind pyRFind
    rw [h1, h2]
    have e1 : ((i : Int) != -1) = true := by
      simp only [bne_iff_ne, ne_eq]
      omega
    have e2 : (((j : Int) + 1) != -1) = true := by
      simp only [bne_iff_ne, ne_eq]
      omega
    have e3 : ((i : Int)).toNat = i := by omega
    have e4 : (((j : Int)) + 1).toNat = j + 1 := by omega
    rw [e1, e2, e3, e4]
    rfl

/-- C2 witness: the three truncation regimes at concrete inputs. -/
theorem truncate_braces_cases_witness :
    (truncate_braces "a\x7bc\x7dd").data = (("a\x7bc\x7dd" : String).data.take 4).drop 1 ∧
    truncate_braces "abc" = "abc" ∧
    truncate_braces "x\x7byz" = "" :=
  ⟨((truncate_braces_cases "a\x7bc\x7dd").2.2 1 3 (by decide) (by decide)).1,
   (truncate_braces_cases "abc").1 (by decide),
   (truncate_braces_cases "x\x7byz").2.1 1 (by decide) (by decide)⟩

theorem toHexChar_hex {n : Nat} (h : n < 16) : isHexDigitChar (toHexChar n) = true := by
  interval_cases n <;> decide

theorem jsonTail_uEscape (n : Nat) (rest : List Char) :
    jsonTailState 0 (uEscape n ++ rest) = jsonTailState 0 rest := by
  have h1 := toHexChar_hex (Nat.mod_lt (n / 4096) (by norm_num))
  have h2 := toHexChar_hex (Nat.mod_lt (n / 256) (by norm_num))
  have h3 := toHexChar_hex (Nat.mod_lt (n / 16) (by norm_num))
  have h4 := toHexChar_hex (Nat.mod_lt n (by norm_num))
  simp [uEscape, jsonTailState, h1, h2, h3, h4]

theorem jsonTail_escape (c : Char) (rest : List Char) :
    jsonTailState 0 (escapeJsonChar c ++ rest) = jsonTailState 0 rest := by
  by_cases h1 : c = '"'
  · simp [escapeJsonChar, h1, jsonTailState]
  by_cases h2 : c = '\\'
  · simp [escapeJsonChar, h1, h2, jsonTailState]
  by_cases h3 : c = '\n'
  · simp [escapeJsonChar, h1, h2, h3, jsonTailState]
  by_cases h4 : c = '\r'
  · simp [escapeJsonChar, h1, h2, h3, h4, jsonTailState]
  by_cases h5 : c = '\t'
  · simp [escapeJsonChar, h1, h2, h3, h4, h5, jsonTailState]
  by_cases h6 : c = '\x08'
  · simp [escapeJsonChar, h1, h2, h3, h4, h5, h6, jsonTailState]
  by_cases h7 : c = '\x0c'
  · simp [escapeJsonChar, h1, h2, h3, h4, h5, h6, h7, jsonTailState]
  by_cases h8 : c.toNat < 32
  · simp only [escapeJsonChar, h1, h2, h3, h4, h5, h6, h7, h8, if_true, if_false,
      eq_self_iff_true, ite_true, ite_false]
    exact jsonTail_uEscape _ rest
  by_cases h9 : c.toNat < 127
  · have hge : 32 ≤ c.toNat := by omega
    simp [escapeJsonChar, h1, h2, h3, h4, h5, h6, h7, h8, h9, jsonTailState, hge]
  by_cases h10 : c.toNat < 65536
  · simp only [escapeJsonChar, h1, h2, h3, h4, h5, h6, h7, h8, h9, h10, if_true,
      if_false, eq_self_iff_true, ite_true, ite_false]
    exact jsonTail_uEscape _ rest
  · simp only [escapeJsonChar, h1, h2, h3, h4, h5, h6, h7, h8, h9, h10, if_true,
      if_false, eq_self_iff_true, ite_true, ite_false]
    rw [List.append_assoc, jsonTail_uEscape, jsonTail_uEscape]

theorem jsonTail_dumps_body (v : List Char) :
    jsonTailState 0 ((v.map escapeJsonChar).flatten ++ ['"']) = true := by
  induction v with
  | nil => decide
  | cons c cs ih =>
      simp only [List.map_cons, List.flatten_cons, List.append_assoc]
      rw [jsonTail_escape]
      exact ih

theorem pyJsonDumps_ok (v : List Char) : json_string_ok (pyJsonDumps v) = true := by
  unfold json_string_ok pyJsonDumps
  simp only [beq_self_eq_true, Bool.true_and]
  exact jsonTail_dumps_body v

theorem splitBreaksAux_nobreak {l : List Char}
    (hnb : ∀ c ∈ l, isLineBreak c = false) : splitBreaksAux false l = [l] := by
  induction l with
  | nil => rfl
  | cons c cs ih =>
      have hc := hnb c (List.mem_cons_self c cs)
      have ih2 := ih fun x hx => hnb x (List.mem_cons_of_mem c hx)
      simp [splitBreaksAux, hc, ih2]

theorem pySplitlines_single {l : List Char} (hne : l ≠ [])
    (hnb : ∀ c ∈ l, isLineBreak c = false) : pySplitlines l = [l] := by
  cases l with
  | nil => cases hne rfl
  | cons c cs =>
      unfold pySplitlines
      rw [splitBreaksAux_nobreak hnb]
      rfl

theorem fix_json_lines_single_line {l : List Char} (hne : l ≠ [])
    (hnb : ∀ c ∈ l, isLineBreak c = false) :
    fix_json_lines (String.mk l) = String.mk (fix_json_line l) := by
  unfold fix_json_lines
  rw [show (String.mk l).data = l from rfl, pySplitlines_single hne hnb]
  rfl

/-- C3 counterexample: a value line with an embedded unescaped quote does
not match the repair regex (its value group cannot contain a bare quote),
so the line passes through unchanged instead of being re-serialized with
the quote escaped. -/
theorem embedded_quote_not_repaired_cx :
    fix_json_lines "\x22k\x22: \x22a\x22b\x22" = "\x22k\x22: \x22a\x22b\x22" ∧
    ("\x22k\x22: \x22a\x22b\x22" : String) ≠
      String.mk ("\x22k\x22: ".data ++ pyJsonDumps "a\x22b".data) := by
  constructor
  · decide
  · decide

/-- C3 (amended): a line matching the repair shape, whose value group is
a sequence of backslash escape pairs and characters other than quote and
backslash (this excludes embedded unescaped quotes; raw control
characters are included), is rebuilt as the key group, the value
re-serialized as a well-formed JSON string literal, and the trailing
comma; the re-serialized literal always lexes as a valid JSON string. -/
theorem quote_value_line_reserialized (line g1 v : List Char) (comma : Bool)
    (hm : parseKVLine line = some (g1, v, comma))
    (hnb : ∀ c ∈ line, isLineBreak c = false) :
    fix_json_lines (String.mk line) =
      String.mk (g1 ++ pyJsonDumps v ++ (if comma then [','] else [])) ∧
    json_string_ok (pyJsonDumps v) = true := by
  have hne : line ≠ [] := by
    intro h
    rw [h, show parseKVLine [] = none from rfl] at hm
    exact Option.noConfusion hm
  refine ⟨?_, pyJsonDumps_ok v⟩
  rw [fix_json_lines_single_line hne hnb]
  unfold fix_json_line
  rw [hm]

/-- C3 witness: a value containing a raw tab is re-serialized with the
tab escaped, key and trailing comma preserved. -/
theorem quote_value_line_reserialized_witness :
    fix_json_lines (String.mk "\x22k\x22: \x22a\tb\x22,".data) =
      String.mk ("\x22k\x22: ".data ++ pyJsonDumps "a\tb".data ++ [',']) ∧
    json_string_ok (pyJsonDumps "a\tb".data) = true :=
  quote_value_line_reserialized "\x22k\x22: \x22a\tb\x22,".data "\x22k\x22: ".data
    "a\tb".data true (by decide) (by decide)
